import Mathlib

/-!
Shallow embedding of the LK-360 Digital AIO Display pipeline
(`src/hid_device.py`, `src/hardware_monitor.py`, `src/lk_display.py`).

Conventions of the embedding:
* Python integers are `Int`; Python `v & 0xFF` is `v.emod 256` and
  Python `v >> n` (arithmetic shift) is `v.fdiv (2 ^ n)`.
* Python floats are modelled as rationals `ℚ`; the concrete values
  exercised below are exactly representable in binary floating point,
  so the rational model agrees with the float computation there.
* A 65-byte `bytearray` packet is a `List Int` of length 65, written as
  the literal list of the final value of each index (every index is
  assigned at most once by the builders, starting from a zero-filled
  fresh buffer).
* Fallible reads (`/proc/stat` open/parse) are `Option`-valued; the
  `except`-and-return-0.0 paths of the Python code are the `none`
  branches.
-/

/-- Python `v & 0xFF` on an arbitrary integer: the nonnegative residue mod 256. -/
def pyAnd255 (v : Int) : Int := v.emod 256

/-- Python `v >> n` on an arbitrary integer: arithmetic shift, i.e. floor
division by `2 ^ n`. -/
def pyShr (v : Int) (n : Nat) : Int := v.fdiv (2 ^ n)

/-- Truncation toward zero, Python `int()` applied to a float (modelled as ℚ). -/
def pyInt (q : ℚ) : Int := q.num / (q.den : Int)

/-- The mutable telemetry snapshot `SensorData` of `src/hid_device.py`
(all fields default to 0). -/
structure SensorData where
  cpu_temp : Int := 0
  cpu_usage : Int := 0
  cpu_freq : Int := 0
  cpu_fan_rpm : Int := 0
  cpu_power : Int := 0
  gpu_temp : Int := 0
  gpu_usage : Int := 0
  gpu_freq : Int := 0
  gpu_fan_rpm : Int := 0
  gpu_power : Int := 0
  mem_usage : Int := 0
  mem_temp : Int := 0
  disk_usage : Int := 0
  disk_temp : Int := 0
  net_upload : Int := 0
  net_download : Int := 0
  display_mode : Int := 0
deriving Repr, DecidableEq

/-- `HidDevice.set_cpu_data` (src/hid_device.py lines 175–182). -/
def setCpuData (s : SensorData) (temp usage freq fan_rpm power : Int) : SensorData :=
  { s with
    cpu_temp := min 255 (max 0 temp)
    cpu_usage := min 100 (max 0 usage)
    cpu_freq := min 65535 (max 0 freq)
    cpu_fan_rpm := min 65535 (max 0 fan_rpm)
    cpu_power := min 65535 (max 0 power) }

/-- `HidDevice.set_gpu_data` (src/hid_device.py lines 184–191). -/
def setGpuData (s : SensorData) (temp usage freq fan_rpm power : Int) : SensorData :=
  { s with
    gpu_temp := min 255 (max 0 temp)
    gpu_usage := min 100 (max 0 usage)
    gpu_freq := min 65535 (max 0 freq)
    gpu_fan_rpm := min 65535 (max 0 fan_rpm)
    gpu_power := min 65535 (max 0 power) }

/-- `HidDevice.set_memory_data` (src/hid_device.py lines 193–196). -/
def setMemoryData (s : SensorData) (usage temp : Int) : SensorData :=
  { s with
    mem_usage := min 100 (max 0 usage)
    mem_temp := min 255 (max 0 temp) }

/-- `HidDevice.set_disk_data` (src/hid_device.py lines 198–201). -/
def setDiskData (s : SensorData) (usage temp : Int) : SensorData :=
  { s with
    disk_usage := min 100 (max 0 usage)
    disk_temp := min 255 (max 0 temp) }

/-- `HidDevice.set_network_speed` (src/hid_device.py lines 203–206): the
arguments are stored as-is, with no clamping. -/
def setNetworkSpeed (s : SensorData) (upload download : Int) : SensorData :=
  { s with net_upload := upload, net_download := download }

/-- `HidDevice.set_display_mode` (src/hid_device.py lines 208–210). -/
def setDisplayMode (s : SensorData) (mode : Int) : SensorData :=
  { s with display_mode := mode }

/-- Wall-clock value (`datetime.now()`) observed at encode time. -/
structure WallClock where
  hour : Int
  minute : Int
  second : Int
  year : Int
  month : Int
  day : Int
  weekday : Int
deriving Repr, DecidableEq

/-- Byte `i` of a packet (reads as 0 past the end, which never happens for
the fixed 65-byte packets below). -/
def pktByte (p : List Int) (i : Nat) : Int := p.getD i 0

/-- `HidDevice._build_gamdias_packet` (src/hid_device.py lines 212–289):
the Family A 65-byte report, written as the literal final content of the
zero-initialised buffer (indices 0–25 assigned, 26–64 left zero). -/
def buildGamdiasPacket (data : SensorData) (now : WallClock) : List Int :=
  [ 0xB0, 0x01, 0x00,
    data.gpu_temp,
    pyAnd255 data.cpu_temp, pyAnd255 (pyShr data.cpu_temp 8),
    data.cpu_usage,
    pyAnd255 data.cpu_fan_rpm, pyAnd255 (pyShr data.cpu_fan_rpm 8),
    pyAnd255 data.gpu_fan_rpm, pyAnd255 (pyShr data.gpu_fan_rpm 8),
    pyAnd255 data.gpu_power, pyAnd255 (pyShr data.gpu_power 8),
    0x00,
    pyAnd255 (pyShr data.cpu_freq 8), pyAnd255 data.cpu_freq,
    data.gpu_usage,
    pyAnd255 (pyShr data.gpu_freq 8), pyAnd255 data.gpu_freq,
    now.hour, now.minute, now.second,
    data.mem_usage, data.disk_usage,
    pyAnd255 data.cpu_power, pyAnd255 (pyShr data.cpu_power 8),
    0, 0, 0, 0, 0, 0, 0, 0, 0, 0, 0, 0, 0, 0, 0, 0, 0, 0, 0, 0,
    0, 0, 0, 0, 0, 0, 0, 0, 0, 0, 0, 0, 0, 0, 0, 0, 0, 0, 0 ]

/-- `HidDevice._build_hwcx_packet` (src/hid_device.py lines 291–361):
the Family B 65-byte report (indices 0–36 and 41–49 assigned, the rest
left zero). -/
def buildHwcxPacket (data : SensorData) (now : WallClock) : List Int :=
  [ 0x00, 0x02,
    data.cpu_temp, data.gpu_temp,
    now.hour, now.minute, now.second,
    0x00,
    pyAnd255 (pyShr now.year 8), pyAnd255 now.year,
    now.month, now.day, now.weekday,
    data.cpu_usage,
    pyAnd255 (pyShr data.cpu_freq 8), pyAnd255 data.cpu_freq,
    data.gpu_usage,
    pyAnd255 (pyShr data.gpu_freq 8), pyAnd255 data.gpu_freq,
    data.mem_usage, data.mem_temp, 0x00, 0x00,
    data.disk_usage, data.disk_temp,
    pyAnd255 (pyShr data.cpu_fan_rpm 8), pyAnd255 data.cpu_fan_rpm,
    0x00, 0x00,
    pyAnd255 (pyShr data.cpu_power 8), pyAnd255 data.cpu_power,
    pyAnd255 (pyShr data.gpu_fan_rpm 8), pyAnd255 data.gpu_fan_rpm,
    0x00, 0x00,
    pyAnd255 (pyShr data.gpu_power 8), pyAnd255 data.gpu_power,
    0, 0, 0, 0,
    pyAnd255 (pyShr data.net_upload 24), pyAnd255 (pyShr data.net_upload 16),
    pyAnd255 (pyShr data.net_upload 8), pyAnd255 data.net_upload,
    pyAnd255 (pyShr data.net_download 24), pyAnd255 (pyShr data.net_download 16),
    pyAnd255 (pyShr data.net_download 8), pyAnd255 data.net_download,
    data.display_mode,
    0, 0, 0, 0, 0, 0, 0, 0, 0, 0, 0, 0, 0, 0, 0 ]

example : (buildGamdiasPacket {} ⟨0,0,0,0,0,0,0⟩).length = 65 := by decide
example : (buildHwcxPacket {} ⟨0,0,0,0,0,0,0⟩).length = 65 := by decide
example : pktByte (buildGamdiasPacket { cpu_freq := 3500 } ⟨1,2,3,2024,5,6,0⟩) 14 = 13 := by decide
example : pktByte (buildGamdiasPacket { cpu_freq := 3500 } ⟨1,2,3,2024,5,6,0⟩) 15 = 172 := by decide

/-!
CPU Usage Tracker (`CpuUsageTracker` in src/hardware_monitor.py).

The content of the first line of `/proc/stat` at one read is modelled as
`Option (List (Option Int))`: `none` when the file cannot be opened or
read at all, otherwise the whitespace-split tokens of the line, where a
token is `some v` when Python `int(token)` succeeds with value `v` and
`none` when it raises. An empty or short line is a short (or empty)
token list.
-/

/-- One observed content of the counters source (`/proc/stat` first line). -/
def StatContent := Option (List (Option Int))

/-- Python `sum(int(p) for p in tokens)`: fails (raises) if any token is
unparseable, otherwise the sum. -/
def sumTokens : List (Option Int) → Option Int
  | [] => some 0
  | none :: _ => none
  | some v :: rest => (sumTokens rest).map (v + ·)

/-- The parse performed by both `_init_values` and `get_usage`
(src/hardware_monitor.py lines 61–65 and 72–79):
`idle = int(parts[4]) + int(parts[5])`, `total = sum(int(p) for p in parts[1:11])`;
`none` when any step raises (missing file, short line, non-numeric token). -/
def parseStat (src : StatContent) : Option (Int × Int) :=
  match src with
  | none => none
  | some parts =>
    match parts.get? 4, parts.get? 5 with
    | some (some i4), some (some i5) =>
      match sumTokens ((parts.drop 1).take 10) with
      | some total => some (i4 + i5, total)
      | none => none
    | _, _ => none

/-- Internal state of `CpuUsageTracker`: `_last_idle`, `_last_total`,
`_initialized`. -/
structure TrackerState where
  lastIdle : Int
  lastTotal : Int
  initialized : Bool
deriving Repr, DecidableEq

/-- `CpuUsageTracker.__init__` (src/hardware_monitor.py lines 51–68): the
fields start at 0/False and `_init_values` reads the counters source once,
storing the parsed counters and setting `_initialized` on success and
leaving the state untouched on any exception. -/
def mkTracker (src : StatContent) : TrackerState :=
  match parseStat src with
  | some (idle, total) => ⟨idle, total, true⟩
  | none => ⟨0, 0, false⟩

/-- `CpuUsageTracker.get_usage` (src/hardware_monitor.py lines 70–100),
returning the float result (as ℚ) and the updated tracker state. Any
exception while reading or parsing returns 0.0 with the state unchanged. -/
def getUsage (st : TrackerState) (src : StatContent) : ℚ × TrackerState :=
  match parseStat src with
  | none => (0, st)
  | some (idle, total) =>
    if st.initialized = false then
      (0, ⟨idle, total, true⟩)
    else
      let idleDelta : Int := idle - st.lastIdle
      let totalDelta : Int := total - st.lastTotal
      let st' : TrackerState := ⟨idle, total, true⟩
      if totalDelta ≤ 0 then
        (0, st')
      else
        (max 0 (min 100 (100 * (1 - (idleDelta : ℚ) / (totalDelta : ℚ)))), st')

/-- A stat line `cpu a b c d e f g h i j` with the given ten numeric
fields (token 0 is the unparseable literal `cpu`). -/
def statLine (a b c d e f g h i j : Int) : StatContent :=
  some [none, some a, some b, some c, some d, some e,
        some f, some g, some h, some i, some j]

example : parseStat (statLine 900 0 0 100 0 0 0 0 0 0) = some (100, 1000) := by decide
example : parseStat (some []) = none := by decide
example : parseStat none = none := by decide
example : parseStat (some [none, some 1, some 2, some 3, none, some 5,
    some 6, some 7, some 8, some 9, some 10]) = none := by decide
example :
    (getUsage (getUsage ⟨0, 0, false⟩ (statLine 900 0 0 100 0 0 0 0 0 0)).2
      (statLine 1050 0 0 150 0 0 0 0 0 0)).1 = 75 := by
  simp [getUsage, parseStat, statLine, sumTokens]
  norm_num

/-!
GPU vendor detection and readings (`HardwareMonitor` in
src/hardware_monitor.py) and the GPU half of the orchestrator's update
cycle (`LKDisplay._update_cycle` in src/lk_display.py).
-/

/-- The detected GPU backend (`HardwareMonitor._gpu_vendor`). -/
inductive GpuVendor where
  | nvidia
  | amd
  | intel
deriving Repr, DecidableEq

/-- The `GpuData` dataclass of src/hardware_monitor.py; float fields are
modelled as ℚ. `GpuData()` is the all-default value. -/
structure GpuData where
  name : String := ""
  temperature : ℚ := 0
  usage : ℚ := 0
  frequency : ℚ := 0
  memory_usage : ℚ := 0
  fan_rpm : Int := 0
  power : ℚ := 0
  vendor : String := ""
  is_valid : Bool := false
deriving Repr, DecidableEq

/-- One entry of `/sys/class/drm` as inspected by `_detect_gpu`
(src/hardware_monitor.py lines 141–168): whether the entry name is a
`card*` node without a dash, whether `device` exists, the content of the
`device/vendor` file if present, and the entries of `device/hwmon`
(empty when the directory is absent or empty). -/
structure DrmCard where
  isCardNode : Bool
  hasDevice : Bool
  vendor : Option String
  hwmons : List String
deriving Repr, DecidableEq

/-- The card-scanning loop of `HardwareMonitor._detect_gpu`
(src/hardware_monitor.py lines 142–168): the first AMD card with a
nonempty `hwmon` directory wins, an Intel card wins immediately, any
other card is skipped. -/
def scanDrmCards : List DrmCard → Option GpuVendor
  | [] => none
  | c :: rest =>
    if c.isCardNode && c.hasDevice then
      match c.vendor with
      | some v =>
        if v = "0x1002" then
          match c.hwmons with
          | _ :: _ => some .amd
          | [] => scanDrmCards rest
        else if v = "0x8086" then some .intel
        else scanDrmCards rest
      | none => scanDrmCards rest
    else scanDrmCards rest

/-- `HardwareMonitor._detect_gpu` (src/hardware_monitor.py lines 133–170):
NVIDIA (the `nvidia-smi` probe succeeded) takes priority, then the DRM
card scan; otherwise no vendor is recorded. -/
def detectGpu (nvidiaAvailable : Bool) (cards : List DrmCard) : Option GpuVendor :=
  if nvidiaAvailable then some .nvidia
  else scanDrmCards cards

/-- `HardwareMonitor.get_gpu_data` (src/hardware_monitor.py lines 280–289):
dispatch on the detected vendor; the per-vendor readers (which consult
the external filesystem and tools) are abstracted as their results; with
no vendor the result is a fresh default `GpuData()`. -/
def getGpuData (vendor : Option GpuVendor)
    (nvidiaRead amdRead intelRead : GpuData) : GpuData :=
  match vendor with
  | some .nvidia => nvidiaRead
  | some .amd => amdRead
  | some .intel => intelRead
  | none => {}

/-- The GPU step of `LKDisplay._update_cycle` (src/lk_display.py lines
198–209): a valid reading is written into the snapshot via
`set_gpu_data` with `int()`-truncated fields; an invalid reading writes
a synthetic all-zero GPU reading instead. -/
def updateCycleGpuStep (s : SensorData) (gpu : GpuData) : SensorData :=
  if gpu.is_valid then
    setGpuData s (pyInt gpu.temperature) (pyInt gpu.usage) (pyInt gpu.frequency)
      gpu.fan_rpm (pyInt gpu.power)
  else
    setGpuData s 0 0 0 0 0

example : detectGpu false [⟨true, true, some "0x10de", []⟩] = none := by decide
example : detectGpu false [⟨true, true, some "0x1002", ["hwmon3"]⟩] = some .amd := by decide
example : getGpuData (detectGpu false []) {} {} {} = ({} : GpuData) := by decide

/-!
Device lifecycle (`HidDevice` mutable state and `send_data`,
src/hid_device.py lines 75–80 and 386–441).

The state holds the three dictionaries/sets keyed by device path:
`_devices` (path → file descriptor), `_device_info` (path → the
`is_gamdias` flag of its `DeviceInfo`, the only field `send_data`
consults), and `_initialized_devices`. Dictionaries are association
lists in insertion order. The outcome of the single data write
`os.write(fd, packet)` for each path this cycle is abstracted as a
function of the path; the init-sequence writes of `_send_gamdias_init`
are caught internally (src/hid_device.py lines 377–382) and cannot
change control flow, so they do not appear.
-/

/-- Outcome of the data write to one device this cycle: a completed write
of `n` bytes, an `OSError` with the given `errno`, or any other
exception. -/
inductive WriteRes where
  | ok (n : Nat)
  | osErr (errno : Nat)
  | exc
deriving Repr, DecidableEq

/-- The mutable state of a `HidDevice` object. -/
structure HidState where
  devices : List (String × Nat)
  deviceInfo : List (String × Bool)
  initialized : List String
  sensorData : SensorData
deriving Repr, DecidableEq

/-- Dictionary lookup `self._device_info.get(path)` (restricted to the
`is_gamdias` field, the only one `send_data` uses). -/
def deviceInfoLookup (info : List (String × Bool)) (p : String) : Option Bool :=
  (info.find? (fun d => d.1 == p)).map (·.2)

/-- Dictionary lookup `self._devices[path]`. -/
def deviceFdLookup (devices : List (String × Nat)) (p : String) : Option Nat :=
  (devices.find? (fun d => d.1 == p)).map (·.2)

/-- `HidDevice.get_online_device_count` (src/hid_device.py lines 171–173). -/
def getOnlineDeviceCount (st : HidState) : Nat := st.devices.length

/-- The paths currently in the active set `_devices`. -/
def activePaths (st : HidState) : List String := st.devices.map Prod.fst

/-- The per-device loop of `send_data` (src/hid_device.py lines 394–427),
threading the accumulator (initialized set, `to_remove` list, `success`
flag) through the devices in iteration order. For each path with device
info: the init sequence is sent and the path added to
`_initialized_devices` if absent (this happens before the data write),
then the write outcome is examined — a full 65-byte write sets
`success`, `OSError` with errno 19 queues the path in `to_remove`, and
every other failure is only logged. -/
def sendDataLoop (w : String → WriteRes) (info : List (String × Bool)) :
    List (String × Nat) → List String × List String × Bool →
    List String × List String × Bool
  | [], acc => acc
  | (p, _fd) :: rest, (inits, toRem, succ) =>
    match deviceInfoLookup info p with
    | none => sendDataLoop w info rest (inits, toRem, succ)
    | some _isGamdias =>
      let inits' := if p ∈ inits then inits else inits ++ [p]
      match w p with
      | .ok n => sendDataLoop w info rest (inits', toRem, succ || (n == 65))
      | .osErr e =>
        if e = 19 then sendDataLoop w info rest (inits', toRem ++ [p], succ)
        else sendDataLoop w info rest (inits', toRem, succ)
      | .exc => sendDataLoop w info rest (inits', toRem, succ)

/-- `HidDevice.send_data` (src/hid_device.py lines 386–441): run the
per-device loop, then remove every queued disconnected path from the
three path-keyed collections, closing its descriptor. Returns the new
state, the success flag, and the list of descriptors closed. -/
def sendData (st : HidState) (w : String → WriteRes) : HidState × Bool × List Nat :=
  if st.devices = [] then (st, false, [])
  else
    let res := sendDataLoop w st.deviceInfo st.devices (st.initialized, [], false)
    let toRem := res.2.1
    let closed := toRem.filterMap (deviceFdLookup st.devices)
    (⟨st.devices.filter (fun d => decide (d.1 ∉ toRem)),
      st.deviceInfo.filter (fun d => decide (d.1 ∉ toRem)),
      res.1.filter (fun q => decide (q ∉ toRem)),
      st.sensorData⟩, res.2.2, closed)

example :
    (sendData ⟨[("/dev/hidraw0", 3)], [("/dev/hidraw0", true)], ["/dev/hidraw0"], {}⟩
      (fun _ => .osErr 19)).1.devices = [] := by decide
example :
    (sendData ⟨[("/dev/hidraw0", 3)], [("/dev/hidraw0", true)], ["/dev/hidraw0"], {}⟩
      (fun _ => .osErr 19)).2.2 = [3] := by decide
example :
    (sendData ⟨[("/dev/hidraw0", 3)], [("/dev/hidraw0", true)], [], {}⟩
      (fun _ => .osErr 5)).1.devices = [("/dev/hidraw0", 3)] := by decide
example :
    (sendData ⟨[("/dev/hidraw0", 3)], [("/dev/hidraw0", true)], [], {}⟩
      (fun _ => .ok 65)).2.1 = true := by decide

/-!
Arbitrary sequences of snapshot setter calls (the public setter API of
`HidDevice`, src/hid_device.py lines 175–210), for stating which fields
are within wire range at encode time.
-/

/-- One call to a public setter of `HidDevice`. -/
inductive SetterCall where
  | cpu (temp usage freq fan_rpm power : Int)
  | gpu (temp usage freq fan_rpm power : Int)
  | memory (usage temp : Int)
  | disk (usage temp : Int)
  | network (upload download : Int)
  | mode (m : Int)
deriving Repr, DecidableEq

/-- Apply one setter call to the snapshot. -/
def applyCall (s : SensorData) : SetterCall → SensorData
  | .cpu t u f r p => setCpuData s t u f r p
  | .gpu t u f r p => setGpuData s t u f r p
  | .memory u t => setMemoryData s u t
  | .disk u t => setDiskData s u t
  | .network u d => setNetworkSpeed s u d
  | .mode m => setDisplayMode s m

/-- Apply a sequence of setter calls, oldest first, starting from the
given snapshot. -/
def applyCalls (s : SensorData) (calls : List SetterCall) : SensorData :=
  calls.foldl applyCall s

/-- The fourteen snapshot fields that the clamping setters own are within
their wire-format ranges: byte fields in 0–255, percentage fields in
0–100, 16-bit fields in 0–65535. -/
def ClampedFieldsInRange (s : SensorData) : Prop :=
  0 ≤ s.cpu_temp ∧ s.cpu_temp ≤ 255 ∧
  0 ≤ s.cpu_usage ∧ s.cpu_usage ≤ 100 ∧
  0 ≤ s.cpu_freq ∧ s.cpu_freq ≤ 65535 ∧
  0 ≤ s.cpu_fan_rpm ∧ s.cpu_fan_rpm ≤ 65535 ∧
  0 ≤ s.cpu_power ∧ s.cpu_power ≤ 65535 ∧
  0 ≤ s.gpu_temp ∧ s.gpu_temp ≤ 255 ∧
  0 ≤ s.gpu_usage ∧ s.gpu_usage ≤ 100 ∧
  0 ≤ s.gpu_freq ∧ s.gpu_freq ≤ 65535 ∧
  0 ≤ s.gpu_fan_rpm ∧ s.gpu_fan_rpm ≤ 65535 ∧
  0 ≤ s.gpu_power ∧ s.gpu_power ≤ 65535 ∧
  0 ≤ s.mem_usage ∧ s.mem_usage ≤ 100 ∧
  0 ≤ s.mem_temp ∧ s.mem_temp ≤ 255 ∧
  0 ≤ s.disk_usage ∧ s.disk_usage ≤ 100 ∧
  0 ≤ s.disk_temp ∧ s.disk_temp ≤ 255

instance (s : SensorData) : Decidable (ClampedFieldsInRange s) := by
  unfold ClampedFieldsInRange
  infer_instance

/-- The packet-building step inside `send_data` (src/hid_device.py lines
406–410): select the builder by the device family flag and build from
`self._sensor_data`; the builders only read the object state (a fresh
zeroed `bytearray` is allocated inside), so the state component of the
result is the unchanged input state. -/
def buildPacketStep (st : HidState) (isGamdias : Bool) (t : WallClock) :
    HidState × List Int :=
  (st, if isGamdias then buildGamdiasPacket st.sensorData t
       else buildHwcxPacket st.sensorData t)

/-- Each single setter call keeps the fourteen clamped fields in range. -/
theorem applyCall_preserves_range (s : SensorData) (c : SetterCall)
    (h : ClampedFieldsInRange s) : ClampedFieldsInRange (applyCall s c) := by
  cases c <;>
    simp only [applyCall, setCpuData, setGpuData, setMemoryData, setDiskData,
      setNetworkSpeed, setDisplayMode, ClampedFieldsInRange] at h ⊢ <;>
    omega

/-- Any sequence of setter calls keeps the fourteen clamped fields in range. -/
theorem applyCalls_preserves_range (s : SensorData) (calls : List SetterCall)
    (h : ClampedFieldsInRange s) : ClampedFieldsInRange (applyCalls s calls) := by
  induction calls generalizing s with
  | nil => exact h
  | cons c rest ih => exact ih _ (applyCall_preserves_range s c h)

/-!
Theorems settling the claims.
-/

/-- C1: for every snapshot whose `cpu_freq` field is 3500, bytes 14–15 of
the Family A (GAMDIAS) packet decode big-endian to 3500, and bytes 14–15
of the Family B (HWCX) packet decode big-endian to 3500. -/
theorem cpuFreq_roundtrip_3500 (s : SensorData) (t : WallClock)
    (h : s.cpu_freq = 3500) :
    pktByte (buildGamdiasPacket s t) 14 * 256 + pktByte (buildGamdiasPacket s t) 15 = 3500 ∧
    pktByte (buildHwcxPacket s t) 14 * 256 + pktByte (buildHwcxPacket s t) 15 = 3500 := by
  have h14a : pktByte (buildGamdiasPacket s t) 14 = pyAnd255 (pyShr s.cpu_freq 8) := rfl
  have h15a : pktByte (buildGamdiasPacket s t) 15 = pyAnd255 s.cpu_freq := rfl
  have h14b : pktByte (buildHwcxPacket s t) 14 = pyAnd255 (pyShr s.cpu_freq 8) := rfl
  have h15b : pktByte (buildHwcxPacket s t) 15 = pyAnd255 s.cpu_freq := rfl
  rw [h14a, h15a, h14b, h15b, h]
  refine ⟨by decide, by decide⟩

/-- Witness for C1 at a concrete snapshot and clock. -/
theorem cpuFreq_roundtrip_3500_witness :
    pktByte (buildGamdiasPacket { cpu_freq := 3500 } ⟨10, 20, 30, 2024, 5, 6, 0⟩) 14 * 256 +
      pktByte (buildGamdiasPacket { cpu_freq := 3500 } ⟨10, 20, 30, 2024, 5, 6, 0⟩) 15 = 3500 ∧
    pktByte (buildHwcxPacket { cpu_freq := 3500 } ⟨10, 20, 30, 2024, 5, 6, 0⟩) 14 * 256 +
      pktByte (buildHwcxPacket { cpu_freq := 3500 } ⟨10, 20, 30, 2024, 5, 6, 0⟩) 15 = 3500 :=
  cpuFreq_roundtrip_3500 { cpu_freq := 3500 } ⟨10, 20, 30, 2024, 5, 6, 0⟩ rfl

/-- C3: `set_cpu_data` stores `min(100, max(0, usage))` as the CPU usage
field, so usage 150 encodes as byte 100 (saturation, not mod 256) in both
packet families, and usage -10 encodes as byte 0. -/
theorem set_cpu_data_saturates (s : SensorData) (temp usage freq fan_rpm power : Int)
    (now : WallClock) :
    (setCpuData s temp usage freq fan_rpm power).cpu_usage = min 100 (max 0 usage) ∧
    pktByte (buildGamdiasPacket (setCpuData s temp 150 freq fan_rpm power) now) 6 = 100 ∧
    pktByte (buildHwcxPacket (setCpuData s temp 150 freq fan_rpm power) now) 13 = 100 ∧
    pktByte (buildGamdiasPacket (setCpuData s temp (-10) freq fan_rpm power) now) 6 = 0 ∧
    pktByte (buildHwcxPacket (setCpuData s temp (-10) freq fan_rpm power) now) 13 = 0 :=
  ⟨rfl,
   by show min 100 (max 0 (150 : Int)) = 100; decide,
   by show min 100 (max 0 (150 : Int)) = 100; decide,
   by show min 100 (max 0 (-10 : Int)) = 0; decide,
   by show min 100 (max 0 (-10 : Int)) = 0; decide⟩

/-- C10: `get_usage` is total — modelled by `getUsage` being a function —
and on every counters-source content (missing, empty, malformed,
non-numeric, short line) and every tracker state its result lies in
[0, 100]; the exception paths of the Python code are the `none` branches
of `parseStat`, all of which return 0.0. -/
theorem getUsage_total_in_range (st : TrackerState) (src : StatContent) :
    0 ≤ (getUsage st src).1 ∧ (getUsage st src).1 ≤ 100 := by
  have h100 : (0 : ℚ) ≤ 100 := by norm_num
  unfold getUsage
  rcases hp : parseStat src with _ | ⟨idle, total⟩
  · exact ⟨le_refl 0, h100⟩
  · dsimp only
    split
    · exact ⟨le_refl 0, h100⟩
    · split
      · exact ⟨le_refl 0, h100⟩
      · exact ⟨le_max_left _ _, max_le h100 (min_le_left _ _)⟩

/-- C4: for every initialized tracker state and successfully parsed
counter read, a positive total delta yields exactly the clamped formula
`clamp(100 * (1 - idle_delta / total_delta), 0, 100)` (hence a value in
[0, 100]) and a non-positive total delta yields exactly 0; and the
concrete two-read scenario idle=100,total=1000 then idle=150,total=1200
makes the second call return 75. -/
theorem getUsage_delta_formula (st : TrackerState) (src : StatContent)
    (idle total : Int) (hinit : st.initialized = true)
    (hp : parseStat src = some (idle, total)) :
    (0 < total - st.lastTotal →
      (getUsage st src).1 =
        max 0 (min 100 (100 * (1 - ((idle - st.lastIdle : Int) : ℚ) /
          ((total - st.lastTotal : Int) : ℚ)))) ∧
      0 ≤ (getUsage st src).1 ∧ (getUsage st src).1 ≤ 100) ∧
    (total - st.lastTotal ≤ 0 → (getUsage st src).1 = 0) ∧
    (getUsage (getUsage ⟨0, 0, false⟩ (statLine 900 0 0 100 0 0 0 0 0 0)).2
      (statLine 1050 0 0 150 0 0 0 0 0 0)).1 = 75 := by
  have h100 : (0 : ℚ) ≤ 100 := by norm_num
  have hform : ∀ v : ℚ, (0 : ℚ) ≤ max 0 (min 100 v) ∧ max 0 (min 100 v) ≤ 100 :=
    fun v => ⟨le_max_left _ _, max_le h100 (min_le_left _ _)⟩
  refine ⟨?_, ?_, ?_⟩
  · intro hpos
    unfold getUsage
    rw [hp]
    dsimp only
    rw [if_neg (by simp [hinit]), if_neg (by omega)]
    exact ⟨rfl, hform _⟩
  · intro hle
    unfold getUsage
    rw [hp]
    dsimp only
    rw [if_neg (by simp [hinit]), if_pos hle]
  · simp [getUsage, parseStat, statLine, sumTokens]
    norm_num

/-- Witness for C4 at the concrete scenario state. -/
theorem getUsage_delta_formula_witness :
    (getUsage ⟨100, 1000, true⟩ (statLine 1050 0 0 150 0 0 0 0 0 0)).1 =
      max 0 (min 100 (100 * (1 - ((150 - 100 : Int) : ℚ) / ((1200 - 1000 : Int) : ℚ)))) :=
  ((getUsage_delta_formula ⟨100, 1000, true⟩ (statLine 1050 0 0 150 0 0 0 0 0 0)
    150 1200 rfl (by decide)).1 (by decide)).1

/-- C5 counterexample: the constructor `_init_values` pre-reads the
counters, so the very first `get_usage` call after construction is not
always 0.0 — if the counters advanced between construction and the first
call (construction sees idle=100,total=1000; the call sees
idle=100,total=1200), the first call returns 100, not 0. -/
theorem first_call_after_construction_nonzero :
    (getUsage (mkTracker (statLine 900 0 0 100 0 0 0 0 0 0))
      (statLine 1100 0 0 100 0 0 0 0 0 0)).1 = 100 ∧
    ((100 : ℚ) ≠ 0) := by
  constructor
  · simp [getUsage, mkTracker, parseStat, statLine, sumTokens]
  · norm_num

/-- C5 amended: if the constructor's initialization read fails to parse,
the very first `get_usage` call returns 0.0 whatever content it reads;
and whenever the first call reads the same content the constructor read
(counters unchanged), it returns 0.0. When the constructor's read
succeeded and the counters advanced, the first call instead returns the
delta-based usage (see the counterexample). -/
theorem first_call_zero_cases (c0 c1 : StatContent) :
    (parseStat c0 = none → (getUsage (mkTracker c0) c1).1 = 0) ∧
    (getUsage (mkTracker c0) c0).1 = 0 := by
  constructor
  · intro h
    unfold mkTracker
    rw [h]
    unfold getUsage
    rcases hp : parseStat c1 with _ | ⟨idle, total⟩
    · rfl
    · rfl
  · unfold mkTracker getUsage
    rcases hp : parseStat c0 with _ | ⟨idle, total⟩
    · rfl
    · dsimp only
      rw [if_neg (by simp), if_pos (by omega)]

/-- Witness for the amended C5 at concrete contents. -/
theorem first_call_zero_cases_witness :
    (getUsage (mkTracker none) (statLine 1 2 3 4 5 6 7 8 9 10)).1 = 0 ∧
    (getUsage (mkTracker (statLine 900 0 0 100 0 0 0 0 0 0))
      (statLine 900 0 0 100 0 0 0 0 0 0)).1 = 0 :=
  ⟨(first_call_zero_cases none (statLine 1 2 3 4 5 6 7 8 9 10)).1 rfl,
   (first_call_zero_cases (statLine 900 0 0 100 0 0 0 0 0 0) none).2⟩

/-- C2 counterexample: `set_network_speed` stores its arguments without
clamping, so after the single setter call `set_network_speed(2^32 + 7, 0)`
the Family B builder reads a `net_upload` value outside the 32-bit range
0..2^32-1, and bytes 41–44 of the packet encode the value modulo 2^32
(here 7) — wrapping, not saturating. -/
theorem network_speed_unclamped_cex :
    (applyCalls {} [.network (2 ^ 32 + 7) 0]).net_upload = 2 ^ 32 + 7 ∧
    ¬ ((applyCalls {} [.network (2 ^ 32 + 7) 0]).net_upload ≤ 2 ^ 32 - 1) ∧
    pktByte (buildHwcxPacket (applyCalls {} [.network (2 ^ 32 + 7) 0]) ⟨0, 0, 0, 0, 0, 0, 0⟩) 41 * 2 ^ 24 +
      pktByte (buildHwcxPacket (applyCalls {} [.network (2 ^ 32 + 7) 0]) ⟨0, 0, 0, 0, 0, 0, 0⟩) 42 * 2 ^ 16 +
      pktByte (buildHwcxPacket (applyCalls {} [.network (2 ^ 32 + 7) 0]) ⟨0, 0, 0, 0, 0, 0, 0⟩) 43 * 2 ^ 8 +
      pktByte (buildHwcxPacket (applyCalls {} [.network (2 ^ 32 + 7) 0]) ⟨0, 0, 0, 0, 0, 0, 0⟩) 44 = 7 := by
  refine ⟨by decide, by decide, by decide⟩

/-- C2 amended: the fields owned by `set_cpu_data`, `set_gpu_data`,
`set_memory_data` and `set_disk_data` are clamped to their wire widths,
so after every sequence of setter calls those fourteen fields are within
range at encode time; but `set_network_speed` stores the 32-bit network
rate fields unclamped (as the counterexample shows, an out-of-range rate
wraps modulo 2^32 at byte-split time instead of saturating). -/
theorem setter_clamping_invariant :
    (∀ calls : List SetterCall, ClampedFieldsInRange (applyCalls {} calls)) ∧
    (∀ (s : SensorData) (upload download : Int),
      (setNetworkSpeed s upload download).net_upload = upload ∧
      (setNetworkSpeed s upload download).net_download = download) :=
  ⟨fun calls => applyCalls_preserves_range {} calls (by decide),
   fun _ _ _ => ⟨rfl, rfl⟩⟩

/-- Paths already queued for removal stay queued for the rest of the
`send_data` device loop. -/
theorem sendDataLoop_toRem_mono (w : String → WriteRes) (info : List (String × Bool)) :
    ∀ (devs : List (String × Nat)) (acc : List String × List String × Bool) (q : String),
      q ∈ acc.2.1 → q ∈ (sendDataLoop w info devs acc).2.1 := by
  intro devs
  induction devs with
  | nil => intro acc q h; exact h
  | cons d rest ih =>
    obtain ⟨p, fd⟩ := d
    intro acc q h
    obtain ⟨inits, toRem, succ⟩ := acc
    simp only [sendDataLoop]
    cases hinfo : deviceInfoLookup info p with
    | none => exact ih _ q h
    | some g =>
      dsimp only
      cases hw : w p with
      | ok n => exact ih _ q h
      | exc => exact ih _ q h
      | osErr e =>
        dsimp only
        by_cases he : e = 19
        · rw [if_pos he]
          exact ih _ q (by simp only [List.mem_append]; exact Or.inl h)
        · rw [if_neg he]
          exact ih _ q h

/-- A device whose data write fails with `OSError` errno 19 is queued in
`to_remove` by the `send_data` device loop. -/
theorem sendDataLoop_toRem_of_err19 (w : String → WriteRes) (info : List (String × Bool)) :
    ∀ (devs : List (String × Nat)) (acc : List String × List String × Bool)
      (p : String) (fd : Nat) (g : Bool),
      (p, fd) ∈ devs → deviceInfoLookup info p = some g → w p = .osErr 19 →
      p ∈ (sendDataLoop w info devs acc).2.1 := by
  intro devs
  induction devs with
  | nil => intro acc p fd g hmem; exact absurd hmem (List.not_mem_nil _)
  | cons d rest ih =>
    intro acc p fd g hmem hinfo hw
    obtain ⟨q, qfd⟩ := d
    obtain ⟨inits, toRem, succ⟩ := acc
    rcases List.mem_cons.mp hmem with hhead | htail
    · injection hhead with h1 h2
      subst h1
      simp only [sendDataLoop]
      rw [hinfo]
      dsimp only
      rw [hw]
      dsimp only
      rw [if_pos rfl]
      exact sendDataLoop_toRem_mono w info rest _ p (by simp)
    · simp only [sendDataLoop]
      cases hinfo2 : deviceInfoLookup info q with
      | none => exact ih _ p fd g htail hinfo hw
      | some g2 =>
        dsimp only
        cases hw2 : w q with
        | ok n => exact ih _ p fd g htail hinfo hw
        | exc => exact ih _ p fd g htail hinfo hw
        | osErr e =>
          dsimp only
          by_cases he : e = 19
          · rw [if_pos he]; exact ih _ p fd g htail hinfo hw
          · rw [if_neg he]; exact ih _ p fd g htail hinfo hw

/-- Only paths whose data write failed with `OSError` errno 19 are ever
queued in `to_remove` by the `send_data` device loop. -/
theorem sendDataLoop_toRem_spec (w : String → WriteRes) (info : List (String × Bool)) :
    ∀ (devs : List (String × Nat)) (acc : List String × List String × Bool) (q : String),
      q ∈ (sendDataLoop w info devs acc).2.1 → q ∈ acc.2.1 ∨ w q = .osErr 19 := by
  intro devs
  induction devs with
  | nil => intro acc q h; exact Or.inl h
  | cons d rest ih =>
    intro acc q h
    obtain ⟨p, fd⟩ := d
    obtain ⟨inits, toRem, succ⟩ := acc
    simp only [sendDataLoop] at h
    rcases hinfo : deviceInfoLookup info p with _ | g
    · rw [hinfo] at h
      exact ih _ q h
    · rw [hinfo] at h
      dsimp only at h
      rcases hw : w p with n | e | _
      · rw [hw] at h
        dsimp only at h
        have hres := ih _ q h
        exact hres
      · rw [hw] at h
        dsimp only at h
        by_cases he : e = 19
        · rw [if_pos he] at h
          have hres := ih _ q h
          rcases hres with hin | hrest
          · rcases List.mem_append.mp hin with hl | hr
            · exact Or.inl hl
            · have hq : q = p := by simpa using hr
              subst hq
              rw [he] at hw
              exact Or.inr hw
          · exact Or.inr hrest
        · rw [if_neg he] at h
          have hres := ih _ q h
          exact hres
      · rw [hw] at h
        dsimp only at h
        have hres := ih _ q h
        exact hres

/-- Paths in the initialized set stay initialized through the `send_data`
device loop (the loop only ever adds to the set). -/
theorem sendDataLoop_inits_mono (w : String → WriteRes) (info : List (String × Bool)) :
    ∀ (devs : List (String × Nat)) (acc : List String × List String × Bool) (q : String),
      q ∈ acc.1 → q ∈ (sendDataLoop w info devs acc).1 := by
  intro devs
  induction devs with
  | nil => intro acc q h; exact h
  | cons d rest ih =>
    obtain ⟨p, fd⟩ := d
    intro acc q h
    obtain ⟨inits, toRem, succ⟩ := acc
    have hmem : q ∈ (if p ∈ inits then inits else inits ++ [p]) := by
      by_cases hp : p ∈ inits
      · rw [if_pos hp]; exact h
      · rw [if_neg hp]; simp only [List.mem_append]; exact Or.inl h
    simp only [sendDataLoop]
    cases hinfo : deviceInfoLookup info p with
    | none => exact ih _ q h
    | some g =>
      dsimp only
      cases hw : w p with
      | ok n => exact ih _ q hmem
      | exc => exact ih _ q hmem
      | osErr e =>
        dsimp only
        by_cases he : e = 19
        · rw [if_pos he]; exact ih _ q hmem
        · rw [if_neg he]; exact ih _ q hmem

/-- With no duplicate paths, the dictionary lookup by path finds exactly
the stored entry. -/
theorem find?_key_of_nodup (l : List (String × Nat)) (p : String) (fd : Nat)
    (hnd : (l.map Prod.fst).Nodup) (hmem : (p, fd) ∈ l) :
    l.find? (fun d => d.1 == p) = some (p, fd) := by
  induction l with
  | nil => cases hmem
  | cons d rest ih =>
    obtain ⟨q, qfd⟩ := d
    simp only [List.map_cons, List.nodup_cons] at hnd
    rcases List.mem_cons.mp hmem with hhead | htail
    · injection hhead with h1 h2
      subst h1; subst h2
      exact List.find?_cons_of_pos _ (by simp)
    · have hqp : ¬ ((q, qfd).1 == p) = true := by
        simp only [beq_iff_eq]
        intro hq
        subst hq
        exact hnd.1 (List.mem_map.mpr ⟨(q, fd), htail, rfl⟩)
      have hstep : List.find? (fun d => d.1 == p) ((q, qfd) :: rest) =
          List.find? (fun d => d.1 == p) rest :=
        List.find?_cons_of_neg rest hqp
      rw [hstep]
      exact ih hnd.2 htail

/-- Filtering out an element that is present strictly shrinks a list. -/
theorem length_filter_lt_of_mem_neg (l : List (String × Nat)) (pr : (String × Nat) → Bool)
    (a : String × Nat) (hmem : a ∈ l) (hpr : pr a = false) :
    (l.filter pr).length < l.length := by
  induction l with
  | nil => cases hmem
  | cons b rest ih =>
    rcases List.mem_cons.mp hmem with hhead | htail
    · subst hhead
      rw [List.filter_cons_of_neg (by simp [hpr])]
      have := List.length_filter_le pr rest
      simp only [List.length_cons]
      omega
    · rcases hb : pr b with _ | _
      · rw [List.filter_cons_of_neg (by simp [hb])]
        have := ih htail
        simp only [List.length_cons]
        omega
      · rw [List.filter_cons_of_pos (by simp [hb])]
        have := ih htail
        simp only [List.length_cons]
        omega

/-- C6: for every open handle (present in `_devices` with device info),
a write failing with `OSError` errno 19 ("no such device") removes the
handle from the active set, clears its initialized flag, shrinks the
count returned by the very next `get_online_device_count`, and closes
its descriptor; a write failing with any other `OSError` errno, or any
other exception, leaves the handle in the active set and keeps its
initialized flag. -/
theorem send_data_disconnect_vs_transient (st : HidState) (w : String → WriteRes)
    (p : String) (fd : Nat) (g : Bool)
    (hmem : (p, fd) ∈ st.devices)
    (hinfo : deviceInfoLookup st.deviceInfo p = some g) :
    (w p = .osErr 19 →
      p ∉ activePaths (sendData st w).1 ∧
      p ∉ (sendData st w).1.initialized ∧
      getOnlineDeviceCount (sendData st w).1 < getOnlineDeviceCount st ∧
      ((st.devices.map Prod.fst).Nodup → fd ∈ (sendData st w).2.2)) ∧
    (∀ e : Nat, w p = .osErr e → e ≠ 19 →
      (p, fd) ∈ (sendData st w).1.devices ∧
      (p ∈ st.initialized → p ∈ (sendData st w).1.initialized)) ∧
    (w p = .exc →
      (p, fd) ∈ (sendData st w).1.devices ∧
      (p ∈ st.initialized → p ∈ (sendData st w).1.initialized)) := by
  have hne : st.devices ≠ [] := by
    intro h0
    rw [h0] at hmem
    cases hmem
  have hsd : sendData st w =
      (⟨st.devices.filter (fun d => decide (d.1 ∉
          (sendDataLoop w st.deviceInfo st.devices (st.initialized, [], false)).2.1)),
        st.deviceInfo.filter (fun d => decide (d.1 ∉
          (sendDataLoop w st.deviceInfo st.devices (st.initialized, [], false)).2.1)),
        (sendDataLoop w st.deviceInfo st.devices (st.initialized, [], false)).1.filter
          (fun q => decide (q ∉
            (sendDataLoop w st.deviceInfo st.devices (st.initialized, [], false)).2.1)),
        st.sensorData⟩,
       (sendDataLoop w st.deviceInfo st.devices (st.initialized, [], false)).2.2,
       (sendDataLoop w st.deviceInfo st.devices (st.initialized, [], false)).2.1.filterMap
         (deviceFdLookup st.devices)) := by
    unfold sendData
    rw [if_neg hne]
  refine ⟨?_, ?_, ?_⟩
  · intro hw
    have hpin : p ∈ (sendDataLoop w st.deviceInfo st.devices (st.initialized, [], false)).2.1 :=
      sendDataLoop_toRem_of_err19 w st.deviceInfo st.devices _ p fd g hmem hinfo hw
    refine ⟨?_, ?_, ?_, ?_⟩
    · rw [hsd]
      simp only [activePaths, List.mem_map]
      rintro ⟨d, hd, hd1⟩
      rw [List.mem_filter] at hd
      have hd2 := hd.2
      rw [hd1] at hd2
      simp only [decide_eq_true_eq] at hd2
      exact hd2 hpin
    · rw [hsd]
      intro hin
      rw [List.mem_filter] at hin
      have hin2 := hin.2
      simp only [decide_eq_true_eq] at hin2
      exact hin2 hpin
    · rw [hsd]
      exact length_filter_lt_of_mem_neg st.devices _ (p, fd) hmem (by simp [hpin])
    · intro hnd
      rw [hsd]
      refine List.mem_filterMap.mpr ⟨p, hpin, ?_⟩
      unfold deviceFdLookup
      rw [find?_key_of_nodup st.devices p fd hnd hmem]
      rfl
  · intro e hw he
    have hnotin : p ∉ (sendDataLoop w st.deviceInfo st.devices (st.initialized, [], false)).2.1 := by
      intro hin
      rcases sendDataLoop_toRem_spec w st.deviceInfo st.devices _ p hin with h0 | h19
      · cases h0
      · rw [hw] at h19
        injection h19 with h19e
        exact he h19e
    constructor
    · rw [hsd]
      exact List.mem_filter.mpr ⟨hmem, by simp [hnotin]⟩
    · intro hinit
      rw [hsd]
      refine List.mem_filter.mpr ⟨?_, by simp [hnotin]⟩
      exact sendDataLoop_inits_mono w st.deviceInfo st.devices _ p hinit
  · intro hw
    have hnotin : p ∉ (sendDataLoop w st.deviceInfo st.devices (st.initialized, [], false)).2.1 := by
      intro hin
      rcases sendDataLoop_toRem_spec w st.deviceInfo st.devices _ p hin with h0 | h19
      · cases h0
      · rw [hw] at h19
        cases h19
    constructor
    · rw [hsd]
      exact List.mem_filter.mpr ⟨hmem, by simp [hnotin]⟩
    · intro hinit
      rw [hsd]
      refine List.mem_filter.mpr ⟨?_, by simp [hnotin]⟩
      exact sendDataLoop_inits_mono w st.deviceInfo st.devices _ p hinit

/-- Witness for C6: one connected, initialized device whose write fails
with errno 19 ("no such device") is gone from the active set, gone from
the initialized set, no longer counted, and its descriptor closed. -/
theorem send_data_disconnect_vs_transient_witness :
    "/dev/hidraw0" ∉ activePaths
      (sendData ⟨[("/dev/hidraw0", 3)], [("/dev/hidraw0", true)], ["/dev/hidraw0"], {}⟩
        (fun _ => .osErr 19)).1 ∧
    "/dev/hidraw0" ∉
      (sendData ⟨[("/dev/hidraw0", 3)], [("/dev/hidraw0", true)], ["/dev/hidraw0"], {}⟩
        (fun _ => .osErr 19)).1.initialized ∧
    getOnlineDeviceCount
      (sendData ⟨[("/dev/hidraw0", 3)], [("/dev/hidraw0", true)], ["/dev/hidraw0"], {}⟩
        (fun _ => .osErr 19)).1 <
      getOnlineDeviceCount
        ⟨[("/dev/hidraw0", 3)], [("/dev/hidraw0", true)], ["/dev/hidraw0"], {}⟩ ∧
    3 ∈ (sendData ⟨[("/dev/hidraw0", 3)], [("/dev/hidraw0", true)], ["/dev/hidraw0"], {}⟩
        (fun _ => .osErr 19)).2.2 := by
  have hall := (send_data_disconnect_vs_transient
    ⟨[("/dev/hidraw0", 3)], [("/dev/hidraw0", true)], ["/dev/hidraw0"], {}⟩
    (fun _ => .osErr 19) "/dev/hidraw0" 3 true (by decide) (by decide)).1 rfl
  exact ⟨hall.1, hall.2.1, hall.2.2.1, hall.2.2.2 (by decide)⟩

/-- If no scanned DRM card is an AMD or Intel vendor match, the card scan
detects nothing. -/
theorem scanDrmCards_none (cards : List DrmCard)
    (h : ∀ c ∈ cards, c.isCardNode = true → c.hasDevice = true →
      c.vendor ≠ some "0x1002" ∧ c.vendor ≠ some "0x8086") :
    scanDrmCards cards = none := by
  induction cards with
  | nil => rfl
  | cons c rest ih =>
    have hrest : scanDrmCards rest = none :=
      ih (fun c' hc' => h c' (List.mem_cons_of_mem _ hc'))
    unfold scanDrmCards
    by_cases h1 : (c.isCardNode && c.hasDevice) = true
    · rw [if_pos h1]
      obtain ⟨hcard, hdev⟩ := Bool.and_eq_true_iff.mp h1
      have hc := h c (List.mem_cons_self _ _) hcard hdev
      rcases hv : c.vendor with _ | v
      · exact hrest
      · dsimp only
        rw [if_neg, if_neg]
        · exact hrest
        · intro hv8
          exact hc.2 (hv ▸ (hv8 ▸ rfl))
        · intro hv1
          exact hc.1 (hv ▸ (hv1 ▸ rfl))
    · rw [if_neg h1]
      exact hrest

/-- C7: when the NVIDIA probe failed and no DRM card matches the AMD or
Intel vendor id, `get_gpu_data` returns a reading with `valid = false`
and all numeric fields 0; the update cycle then writes a synthetic
all-zero GPU reading into the snapshot via `set_gpu_data(0,0,0,0,0)`
rather than leaving the GPU fields unset, so every GPU byte of both
transmitted packet layouts is zero. -/
theorem no_gpu_backend_all_zero (nv : Bool) (cards : List DrmCard)
    (nR aR iR : GpuData) (s : SensorData) (t : WallClock) (g : GpuData) (s' : SensorData)
    (hnv : nv = false)
    (hcards : ∀ c ∈ cards, c.isCardNode = true → c.hasDevice = true →
      c.vendor ≠ some "0x1002" ∧ c.vendor ≠ some "0x8086")
    (hg : g = getGpuData (detectGpu nv cards) nR aR iR)
    (hs' : s' = updateCycleGpuStep s g) :
    g.is_valid = false ∧ g.temperature = 0 ∧ g.usage = 0 ∧ g.frequency = 0 ∧
    g.memory_usage = 0 ∧ g.fan_rpm = 0 ∧ g.power = 0 ∧
    s' = setGpuData s 0 0 0 0 0 ∧
    pktByte (buildGamdiasPacket s' t) 3 = 0 ∧
    pktByte (buildGamdiasPacket s' t) 9 = 0 ∧
    pktByte (buildGamdiasPacket s' t) 10 = 0 ∧
    pktByte (buildGamdiasPacket s' t) 11 = 0 ∧
    pktByte (buildGamdiasPacket s' t) 12 = 0 ∧
    pktByte (buildGamdiasPacket s' t) 16 = 0 ∧
    pktByte (buildGamdiasPacket s' t) 17 = 0 ∧
    pktByte (buildGamdiasPacket s' t) 18 = 0 ∧
    pktByte (buildHwcxPacket s' t) 3 = 0 ∧
    pktByte (buildHwcxPacket s' t) 16 = 0 ∧
    pktByte (buildHwcxPacket s' t) 17 = 0 ∧
    pktByte (buildHwcxPacket s' t) 18 = 0 ∧
    pktByte (buildHwcxPacket s' t) 31 = 0 ∧
    pktByte (buildHwcxPacket s' t) 32 = 0 ∧
    pktByte (buildHwcxPacket s' t) 35 = 0 ∧
    pktByte (buildHwcxPacket s' t) 36 = 0 := by
  have hdet : detectGpu nv cards = none := by
    subst hnv
    unfold detectGpu
    rw [if_neg (by simp)]
    exact scanDrmCards_none cards hcards
  have hg0 : g = {} := by rw [hg, hdet]; rfl
  subst hg0
  subst hs'
  have hz255 : min 255 (max 0 (0 : Int)) = 0 := by decide
  have hz100 : min 100 (max 0 (0 : Int)) = 0 := by decide
  have hzA : pyAnd255 (min 65535 (max 0 (0 : Int))) = 0 := by decide
  have hzB : pyAnd255 (pyShr (min 65535 (max 0 (0 : Int))) 8) = 0 := by decide
  exact ⟨rfl, rfl, rfl, rfl, rfl, rfl, rfl, rfl,
    hz255, hzA, hzB, hzA, hzB, hz100, hzB, hzA,
    hz255, hz100, hzB, hzA, hzB, hzA, hzB, hzA⟩

/-- Witness for C7: an NVIDIA-only non-matching DRM card (vendor id
0x10de), default readers, default snapshot. -/
theorem no_gpu_backend_all_zero_witness :
    (getGpuData (detectGpu false [⟨true, true, some "0x10de", []⟩]) {} {} {}).is_valid = false ∧
    (getGpuData (detectGpu false [⟨true, true, some "0x10de", []⟩]) {} {} {}).temperature = 0 ∧
    (getGpuData (detectGpu false [⟨true, true, some "0x10de", []⟩]) {} {} {}).usage = 0 ∧
    (getGpuData (detectGpu false [⟨true, true, some "0x10de", []⟩]) {} {} {}).frequency = 0 ∧
    (getGpuData (detectGpu false [⟨true, true, some "0x10de", []⟩]) {} {} {}).memory_usage = 0 ∧
    (getGpuData (detectGpu false [⟨true, true, some "0x10de", []⟩]) {} {} {}).fan_rpm = 0 ∧
    (getGpuData (detectGpu false [⟨true, true, some "0x10de", []⟩]) {} {} {}).power = 0 ∧
    updateCycleGpuStep {} (getGpuData (detectGpu false [⟨true, true, some "0x10de", []⟩]) {} {} {}) =
      setGpuData {} 0 0 0 0 0 ∧
    pktByte (buildGamdiasPacket (updateCycleGpuStep {}
      (getGpuData (detectGpu false [⟨true, true, some "0x10de", []⟩]) {} {} {}))
      ⟨1, 2, 3, 2024, 5, 6, 0⟩) 3 = 0 ∧
    pktByte (buildGamdiasPacket (updateCycleGpuStep {}
      (getGpuData (detectGpu false [⟨true, true, some "0x10de", []⟩]) {} {} {}))
      ⟨1, 2, 3, 2024, 5, 6, 0⟩) 9 = 0 ∧
    pktByte (buildGamdiasPacket (updateCycleGpuStep {}
      (getGpuData (detectGpu false [⟨true, true, some "0x10de", []⟩]) {} {} {}))
      ⟨1, 2, 3, 2024, 5, 6, 0⟩) 10 = 0 ∧
    pktByte (buildGamdiasPacket (updateCycleGpuStep {}
      (getGpuData (detectGpu false [⟨true, true, some "0x10de", []⟩]) {} {} {}))
      ⟨1, 2, 3, 2024, 5, 6, 0⟩) 11 = 0 ∧
    pktByte (buildGamdiasPacket (updateCycleGpuStep {}
      (getGpuData (detectGpu false [⟨true, true, some "0x10de", []⟩]) {} {} {}))
      ⟨1, 2, 3, 2024, 5, 6, 0⟩) 12 = 0 ∧
    pktByte (buildGamdiasPacket (updateCycleGpuStep {}
      (getGpuData (detectGpu false [⟨true, true, some "0x10de", []⟩]) {} {} {}))
      ⟨1, 2, 3, 2024, 5, 6, 0⟩) 16 = 0 ∧
    pktByte (buildGamdiasPacket (updateCycleGpuStep {}
      (getGpuData (detectGpu false [⟨true, true, some "0x10de", []⟩]) {} {} {}))
      ⟨1, 2, 3, 2024, 5, 6, 0⟩) 17 = 0 ∧
    pktByte (buildGamdiasPacket (updateCycleGpuStep {}
      (getGpuData (detectGpu false [⟨true, true, some "0x10de", []⟩]) {} {} {}))
      ⟨1, 2, 3, 2024, 5, 6, 0⟩) 18 = 0 ∧
    pktByte (buildHwcxPacket (updateCycleGpuStep {}
      (getGpuData (detectGpu false [⟨true, true, some "0x10de", []⟩]) {} {} {}))
      ⟨1, 2, 3, 2024, 5, 6, 0⟩) 3 = 0 ∧
    pktByte (buildHwcxPacket (updateCycleGpuStep {}
      (getGpuData (detectGpu false [⟨true, true, some "0x10de", []⟩]) {} {} {}))
      ⟨1, 2, 3, 2024, 5, 6, 0⟩) 16 = 0 ∧
    pktByte (buildHwcxPacket (updateCycleGpuStep {}
      (getGpuData (detectGpu false [⟨true, true, some "0x10de", []⟩]) {} {} {}))
      ⟨1, 2, 3, 2024, 5, 6, 0⟩) 17 = 0 ∧
    pktByte (buildHwcxPacket (updateCycleGpuStep {}
      (getGpuData (detectGpu false [⟨true, true, some "0x10de", []⟩]) {} {} {}))
      ⟨1, 2, 3, 2024, 5, 6, 0⟩) 18 = 0 ∧
    pktByte (buildHwcxPacket (updateCycleGpuStep {}
      (getGpuData (detectGpu false [⟨true, true, some "0x10de", []⟩]) {} {} {}))
      ⟨1, 2, 3, 2024, 5, 6, 0⟩) 31 = 0 ∧
    pktByte (buildHwcxPacket (updateCycleGpuStep {}
      (getGpuData (detectGpu false [⟨true, true, some "0x10de", []⟩]) {} {} {}))
      ⟨1, 2, 3, 2024, 5, 6, 0⟩) 32 = 0 ∧
    pktByte (buildHwcxPacket (updateCycleGpuStep {}
      (getGpuData (detectGpu false [⟨true, true, some "0x10de", []⟩]) {} {} {}))
      ⟨1, 2, 3, 2024, 5, 6, 0⟩) 35 = 0 ∧
    pktByte (buildHwcxPacket (updateCycleGpuStep {}
      (getGpuData (detectGpu false [⟨true, true, some "0x10de", []⟩]) {} {} {}))
      ⟨1, 2, 3, 2024, 5, 6, 0⟩) 36 = 0 :=
  no_gpu_backend_all_zero false [⟨true, true, some "0x10de", []⟩] {} {} {} {}
    ⟨1, 2, 3, 2024, 5, 6, 0⟩
    (getGpuData (detectGpu false [⟨true, true, some "0x10de", []⟩]) {} {} {})
    (updateCycleGpuStep {}
      (getGpuData (detectGpu false [⟨true, true, some "0x10de", []⟩]) {} {} {}))
    rfl (by decide) rfl rfl

/-- C8: packet encoding is deterministic — two builds from identical
snapshot field values agree on every byte outside the wall-clock/date
fields (Family A bytes 19–21; Family B bytes 4–6 and 8–12), and the
wall-clock/date bytes equal the clock observed at encode time. -/
theorem packet_encoding_deterministic (s : SensorData) (t1 t2 : WallClock) (i : Nat)
    (hlt : i < 65) :
    (i ≠ 19 → i ≠ 20 → i ≠ 21 →
      pktByte (buildGamdiasPacket s t1) i = pktByte (buildGamdiasPacket s t2) i) ∧
    (pktByte (buildGamdiasPacket s t1) 19 = t1.hour ∧
     pktByte (buildGamdiasPacket s t1) 20 = t1.minute ∧
     pktByte (buildGamdiasPacket s t1) 21 = t1.second) ∧
    (i ≠ 4 → i ≠ 5 → i ≠ 6 → i ≠ 8 → i ≠ 9 → i ≠ 10 → i ≠ 11 → i ≠ 12 →
      pktByte (buildHwcxPacket s t1) i = pktByte (buildHwcxPacket s t2) i) ∧
    (pktByte (buildHwcxPacket s t1) 4 = t1.hour ∧
     pktByte (buildHwcxPacket s t1) 5 = t1.minute ∧
     pktByte (buildHwcxPacket s t1) 6 = t1.second ∧
     pktByte (buildHwcxPacket s t1) 8 = pyAnd255 (pyShr t1.year 8) ∧
     pktByte (buildHwcxPacket s t1) 9 = pyAnd255 t1.year ∧
     pktByte (buildHwcxPacket s t1) 10 = t1.month ∧
     pktByte (buildHwcxPacket s t1) 11 = t1.day ∧
     pktByte (buildHwcxPacket s t1) 12 = t1.weekday) := by
  refine ⟨?_, ⟨rfl, rfl, rfl⟩, ?_, ⟨rfl, rfl, rfl, rfl, rfl, rfl, rfl, rfl⟩⟩
  · intro h19 h20 h21
    interval_cases i <;> first | rfl | omega
  · intro h4 h5 h6 h8 h9 h10 h11 h12
    interval_cases i <;> first | rfl | omega

/-- Witness for C8 at byte 22 of two builds with different clocks. -/
theorem packet_encoding_deterministic_witness :
    pktByte (buildGamdiasPacket {} ⟨1, 2, 3, 2024, 5, 6, 0⟩) 22 =
      pktByte (buildGamdiasPacket {} ⟨7, 8, 9, 2025, 1, 2, 3⟩) 22 ∧
    pktByte (buildGamdiasPacket {} ⟨1, 2, 3, 2024, 5, 6, 0⟩) 19 = 1 ∧
    pktByte (buildHwcxPacket {} ⟨1, 2, 3, 2024, 5, 6, 0⟩) 22 =
      pktByte (buildHwcxPacket {} ⟨7, 8, 9, 2025, 1, 2, 3⟩) 22 ∧
    pktByte (buildHwcxPacket {} ⟨1, 2, 3, 2024, 5, 6, 0⟩) 4 = 1 := by
  have h := packet_encoding_deterministic {} ⟨1, 2, 3, 2024, 5, 6, 0⟩
    ⟨7, 8, 9, 2025, 1, 2, 3⟩ 22 (by decide)
  exact ⟨h.1 (by decide) (by decide) (by decide), h.2.1.1,
    h.2.2.1 (by decide) (by decide) (by decide) (by decide) (by decide)
      (by decide) (by decide) (by decide), h.2.2.2.1⟩

/-- C9: building a packet does not mutate the snapshot (the build step
returns the object state unchanged, in particular the `SensorData`
fields), and the returned buffer is a fresh 65-byte packet in which
every byte not explicitly assigned by the layout (Family A bytes 26–64;
Family B bytes 37–40 and 50–64) is zero. -/
theorem build_packet_pure_and_zero_filled (st : HidState) (t : WallClock) (i : Nat) :
    (buildPacketStep st true t).1 = st ∧
    (buildPacketStep st false t).1 = st ∧
    (buildPacketStep st true t).1.sensorData = st.sensorData ∧
    (buildPacketStep st false t).1.sensorData = st.sensorData ∧
    (buildGamdiasPacket st.sensorData t).length = 65 ∧
    (buildHwcxPacket st.sensorData t).length = 65 ∧
    (26 ≤ i → i ≤ 64 → pktByte (buildGamdiasPacket st.sensorData t) i = 0) ∧
    (37 ≤ i → i ≤ 40 → pktByte (buildHwcxPacket st.sensorData t) i = 0) ∧
    (50 ≤ i → i ≤ 64 → pktByte (buildHwcxPacket st.sensorData t) i = 0) := by
  refine ⟨rfl, rfl, rfl, rfl, rfl, rfl, ?_, ?_, ?_⟩
  · intro h1 h2
    interval_cases i <;> rfl
  · intro h1 h2
    interval_cases i <;> rfl
  · intro h1 h2
    interval_cases i <;> rfl

/-- Witness for C9 at unassigned bytes 30 (Family A), 38 and 60
(Family B) of a concrete state. -/
theorem build_packet_pure_and_zero_filled_witness :
    (buildPacketStep ⟨[], [], [], {}⟩ true ⟨1, 2, 3, 2024, 5, 6, 0⟩).1 = ⟨[], [], [], {}⟩ ∧
    pktByte (buildGamdiasPacket ({} : SensorData) ⟨1, 2, 3, 2024, 5, 6, 0⟩) 30 = 0 ∧
    pktByte (buildHwcxPacket ({} : SensorData) ⟨1, 2, 3, 2024, 5, 6, 0⟩) 38 = 0 ∧
    pktByte (buildHwcxPacket ({} : SensorData) ⟨1, 2, 3, 2024, 5, 6, 0⟩) 60 = 0 := by
  refine ⟨(build_packet_pure_and_zero_filled ⟨[], [], [], {}⟩ ⟨1, 2, 3, 2024, 5, 6, 0⟩ 0).1,
    (build_packet_pure_and_zero_filled ⟨[], [], [], {}⟩ ⟨1, 2, 3, 2024, 5, 6, 0⟩ 30).2.2.2.2.2.2.1
      (by decide) (by decide),
    (build_packet_pure_and_zero_filled ⟨[], [], [], {}⟩ ⟨1, 2, 3, 2024, 5, 6, 0⟩ 38).2.2.2.2.2.2.2.1
      (by decide) (by decide),
    (build_packet_pure_and_zero_filled ⟨[], [], [], {}⟩ ⟨1, 2, 3, 2024, 5, 6, 0⟩ 60).2.2.2.2.2.2.2.2
      (by decide) (by decide)⟩
